import Mathlib

/-!
Verification development for the Telegram image-classifier bot
(`src/main.py`).  The bot receives webhook updates; `handle_image`
selects an image attachment (direct photo or image-typed document),
downloads it, decodes it with PIL, classifies it with a ViT model and
replies with the predicted label; `main` registers the webhook and
starts an HTTP server with a `GET /` health route.

The shallow embedding below models the Python control flow explicitly.
External collaborators (Telegram client, PIL, the model) are supplied
as an environment of functions; a Python exception escaping a piece of
code is modelled with `Except`.
-/

namespace TgBot

/-- A Python exception kind that can escape the code under study.
`attributeError` models `None.startswith` (attribute access on `None`);
`networkError` models a Telegram client / download failure raised by
`get_file` or `download_to_memory`. -/
inductive PyError where
  | attributeError
  | networkError
deriving DecidableEq, Repr

/-- Logging levels used by `logging.info` / `logging.warning` /
`logging.exception` (the latter logs at error level). -/
inductive LogLevel where
  | info
  | warning
  | error
deriving DecidableEq, Repr

/-- A Telegram `Document` as used by `handle_image`: a `file_id` and the
declared `mime_type`, which in the Telegram API is optional (may be
`None`). -/
structure Document where
  file_id : String
  mime_type : Option String
deriving DecidableEq, Repr

/-- The part of a Telegram `Message` read by `handle_image`: the
size-ordered photo list (empty when no photo) and the optional document
attachment.  Each photo variant is identified by its `file_id`. -/
structure Message where
  photo : List String
  document : Option Document
deriving DecidableEq, Repr

/-- A decoded RGB image (the result of
`Image.open(img_bytes).convert("RGB")`). -/
structure RGBImage where
  width : Nat
  height : Nat
  pixels : List (Nat × Nat × Nat)
deriving DecidableEq, Repr

/-- The external world as seen by `handle_image`:
* `getFileOk fid` — whether `context.bot.get_file(fid)` succeeds
  (otherwise it raises a network error);
* `downloadOk fid` — whether `file.download_to_memory(...)` succeeds for
  the file obtained from `fid`;
* `bytesOf fid` — the bytes materialised on a successful download;
* `decodeRGB bytes` — `Image.open(...).convert("RGB")`: `none` models a
  PIL decode exception on malformed bytes;
* `inferLogits img` — the feature extractor plus the model forward pass
  under `torch.no_grad()`, yielding the logits row; `none` models an
  inference-time exception;
* `id2label i` — the model's fixed `model.config.id2label` table;
* `replyOk text` — whether `update.message.reply_text(text)` succeeds
  (otherwise the awaited send raises a network error, like any other
  Telegram client call). -/
structure Env where
  getFileOk : String → Bool
  downloadOk : String → Bool
  bytesOf : String → List Nat
  decodeRGB : List Nat → Option RGBImage
  inferLogits : RGBImage → Option (List Int)
  id2label : Nat → String
  replyOk : String → Bool

/-- The observable outcome of one `handle_image` call: the reply texts
successfully delivered, the reply texts attempted (passed to
`reply_text`, whether or not the send succeeded), the log records
emitted, and the exception escaping `handle_image` if any (`none` on a
normal return). -/
structure HandleResult where
  replies : List String
  attempts : List String
  logs : List (LogLevel × String)
  fault : Option PyError
deriving DecidableEq, Repr

/-- Python `s.startswith(pre)`: whether `pre` is a prefix of `s`,
stated over the underlying character sequences. -/
def strStartsWith (s pre : String) : Bool :=
  pre.data.isPrefixOf s.data

/-- An apostrophe character, kept out of string literals. -/
def apos : String := String.singleton (Char.ofNat 39)

/-- The fallback reply sent from the `except` branch:
`"Sorry, I couldn't process that image."`. -/
def apologyReply : String := "Sorry, I couldn" ++ apos ++ "t process that image."

/-- The prompt sent when no eligible attachment is found:
`"Please send a photo or image file."`. -/
def noAttachmentReply : String := "Please send a photo or image file."

/-- `logits.argmax(-1).item()` on a single logits row: the index of the
first occurrence of the maximal value (`torch.argmax` convention).
Helper carrying the best index, best value and current index. -/
def argmaxGo (bi : Nat) (bv : Int) (i : Nat) : List Int → Nat
  | [] => bi
  | x :: xs => if bv < x then argmaxGo i x (i + 1) xs else argmaxGo bi bv (i + 1) xs

/-- `logits.argmax(-1).item()` over the logits row (0 on an empty row,
which does not occur for the real model). -/
def argmaxIdx : List Int → Nat
  | [] => 0
  | x :: xs => argmaxGo 0 x 1 xs

/-- The attachment-selection prefix of `handle_image` (`file = None`;
`if update.message.photo: ... elif update.message.document and
update.message.document.mime_type.startswith("image/"): ...`).
Returns the `file_id` resolved via `get_file`, `none` when `file`
stays `None`, or the escaping exception.  `photo[-1]` is the last
element of the size-ordered list; a document with `mime_type = None`
raises `AttributeError` from `None.startswith`. -/
def selectFile (env : Env) (msg : Message) : Except PyError (Option String) :=
  match msg.photo.getLast? with
  | some pid =>
      if env.getFileOk pid then .ok (some pid) else .error .networkError
  | none =>
      match msg.document with
      | some d =>
          match d.mime_type with
          | none => .error .attributeError
          | some mt =>
              if strStartsWith mt "image/" then
                if env.getFileOk d.file_id then .ok (some d.file_id)
                else .error .networkError
              else .ok none
      | none => .ok none

/-- The `except Exception` handler of `handle_image`: it logs the
diagnostic record (`logging.exception`) and then attempts the apology
reply.  That send itself is unguarded — no enclosing `try` remains — so
its failure escapes `handle_image`.  `prior` is the list of reply texts
already attempted inside the `try` block before the exception. -/
def exceptBlock (env : Env) (prior : List String) : HandleResult :=
  if env.replyOk apologyReply then
    { replies := [apologyReply], attempts := prior ++ [apologyReply],
      logs := [(.error, "Error processing image")], fault := none }
  else
    { replies := [], attempts := prior ++ [apologyReply],
      logs := [(.error, "Error processing image")], fault := some .networkError }

/-- The body of `handle_image` from `src/main.py`: attachment selection,
then (if a file was resolved) download outside any `try`, then the
`try` block around decode / preprocessing / inference / success reply,
any of whose exceptions — including a failure of the success-path
`reply_text` itself — divert to `exceptBlock`; with no resolved file,
the unguarded no-attachment prompt is sent. -/
def handle_image (env : Env) (msg : Message) : HandleResult :=
  match selectFile env msg with
  | .error e =>
      { replies := [], attempts := [], logs := [], fault := some e }
  | .ok none =>
      if env.replyOk noAttachmentReply then
        { replies := [noAttachmentReply], attempts := [noAttachmentReply],
          logs := [], fault := none }
      else
        { replies := [], attempts := [noAttachmentReply],
          logs := [], fault := some .networkError }
  | .ok (some fid) =>
      if env.downloadOk fid then
        match env.decodeRGB (env.bytesOf fid) with
        | none => exceptBlock env []
        | some img =>
            match env.inferLogits img with
            | none => exceptBlock env []
            | some logits =>
                if env.replyOk ("Predicted class: " ++ env.id2label (argmaxIdx logits)) then
                  { replies := ["Predicted class: " ++ env.id2label (argmaxIdx logits)],
                    attempts := ["Predicted class: " ++ env.id2label (argmaxIdx logits)],
                    logs := [], fault := none }
                else
                  exceptBlock env ["Predicted class: " ++ env.id2label (argmaxIdx logits)]
      else { replies := [], attempts := [], logs := [], fault := some .networkError }

/-- The outcome of one awaited Telegram API call in `main`: the call
returns a boolean, or it raises. -/
inductive ApiCall where
  | ok (b : Bool)
  | raised
deriving DecidableEq, Repr

/-- The external world as seen by `main`: the behaviours of
`app.bot.delete_webhook(drop_pending_updates=True)` and
`app.bot.set_webhook(WEBHOOK_URL)`, plus the webhook URL built from the
environment variables. -/
structure MainEnv where
  deleteWebhookCall : ApiCall
  setWebhookCall : ApiCall
  webhookUrl : String

/-- The observable outcome of a `main` call that returns normally: the
log records emitted and whether `app.run_webhook(...)` was reached (the
HTTP server started). -/
structure MainResult where
  logs : List (LogLevel × String)
  serverStarted : Bool
deriving DecidableEq, Repr

/-- The webhook-registration and startup portion of `main` from
`src/main.py`: `delete_webhook` then `set_webhook`, neither guarded by
a `try`, then a log line depending on `set_webhook`'s returned boolean,
then `run_webhook` starting the server.  A raised exception escapes
`main` before the server starts. -/
def main (env : MainEnv) : Except PyError MainResult :=
  match env.deleteWebhookCall with
  | .raised => .error .networkError
  | .ok _ =>
      match env.setWebhookCall with
      | .raised => .error .networkError
      | .ok success =>
          let lg :=
            if success then
              (LogLevel.info, "✅ Webhook set to: " ++ env.webhookUrl)
            else
              (LogLevel.warning, "❌ Failed to set webhook!")
          .ok { logs := [lg], serverStarted := true }

/-- Modelled from the spec: the messaging platform's server-side webhook
registration state, which is external to `src/` (the code only calls
`delete_webhook` / `set_webhook` on the black-box client).  Per §4.1,
the state is the currently registered push-target URL (if any) plus the
queue of updates pending delivery. -/
structure PlatformState where
  registeredUrl : Option String
  pendingUpdates : List String
deriving DecidableEq, Repr

/-- Modelled from the spec: `delete_webhook(drop_pending_updates=True)`
removes any previously registered webhook and discards updates queued
server-side. -/
def deleteWebhookDrop (_s : PlatformState) : PlatformState :=
  { registeredUrl := none, pendingUpdates := [] }

/-- Modelled from the spec: `set_webhook(url)` registers `url` as the
push target. -/
def setWebhook (url : String) (s : PlatformState) : PlatformState :=
  { s with registeredUrl := some url }

/-- The registration sequence run by `main`: delete (discarding pending
updates), then register the current URL. -/
def registerSequence (url : String) (s : PlatformState) : PlatformState :=
  setWebhook url (deleteWebhookDrop s)

/-- An HTTP response as produced by `aiohttp`'s `web.Response`. -/
structure HttpResponse where
  status : Nat
  body : String
deriving DecidableEq, Repr

/-- The `healthcheck` handler: `web.Response(text="OK")`, whose status
defaults to 200. -/
def healthcheck (_request : Unit) : HttpResponse :=
  { status := 200, body := "OK" }

/-- The route table installed on the aiohttp application in `main`
(`aio_app.router.add_get("/", healthcheck)`): dispatch a request by
method and path to its handler's response, `none` when no route
matches. -/
def serveRequest (method path : String) (request : Unit) : Option HttpResponse :=
  if method = "GET" ∧ path = "/" then some (healthcheck request) else none

/-- A small concrete stand-in for `model.config.id2label`. -/
def labelTable : Nat → String
  | 0 => "tabby"
  | 1 => "goldfish"
  | _ => "unknown"

/-- A concrete environment in which every external call succeeds. -/
def envOk : Env :=
  { getFileOk := fun _ => true
    downloadOk := fun _ => true
    bytesOf := fun _ => [137, 80, 78, 71]
    decodeRGB := fun _ => some { width := 224, height := 224, pixels := [] }
    inferLogits := fun _ => some [2, 9, 4]
    id2label := labelTable
    replyOk := fun _ => true }

/-- A concrete environment in which `get_file` raises. -/
def envGetFileFails : Env := { envOk with getFileOk := fun _ => false }

/-- A concrete environment in which `download_to_memory` raises. -/
def envDownloadFails : Env := { envOk with downloadOk := fun _ => false }

/-- A concrete environment in which PIL decoding raises. -/
def envDecodeFails : Env := { envOk with decodeRGB := fun _ => none }

/-- A concrete environment in which model inference raises. -/
def envInferFails : Env := { envOk with inferLogits := fun _ => none }

/-- A concrete environment in which every external call fails,
`reply_text` included. -/
def envAllFail : Env :=
  { getFileOk := fun _ => false
    downloadOk := fun _ => false
    bytesOf := fun _ => []
    decodeRGB := fun _ => none
    inferLogits := fun _ => none
    id2label := labelTable
    replyOk := fun _ => false }

/-- A concrete environment in which every pipeline call fails but
`reply_text` succeeds. -/
def envPipelineFails : Env := { envAllFail with replyOk := fun _ => true }

/-- A concrete environment in which everything succeeds except sending
the success-path reply text itself. -/
def envPredictedSendFails : Env :=
  { envOk with replyOk := fun t => !(t == "Predicted class: goldfish") }

/-- A concrete environment in which decoding fails and the apology send
also fails. -/
def envDecodeAndSendFail : Env :=
  { envOk with decodeRGB := fun _ => none, replyOk := fun _ => false }

/-- An update carrying a two-variant photo attachment. -/
def msgPhoto : Message := { photo := ["small", "large"], document := none }

/-- An update carrying only a PNG document attachment. -/
def msgPng : Message :=
  { photo := [], document := some { file_id := "doc1", mime_type := some "image/png" } }

/-- An update carrying only a PDF document attachment. -/
def msgPdf : Message :=
  { photo := [], document := some { file_id := "doc1", mime_type := some "application/pdf" } }

/-- A proof helper for `argmaxGo` that also carries the best value. -/
def argmaxPair (bi : Nat) (bv : Int) (i : Nat) : List Int → Nat × Int
  | [] => (bi, bv)
  | x :: xs => if bv < x then argmaxPair i x (i + 1) xs else argmaxPair bi bv (i + 1) xs

/-- The index component of `argmaxPair` is `argmaxGo`. -/
lemma argmaxPair_fst (l : List Int) :
    ∀ bi bv i, (argmaxPair bi bv i l).1 = argmaxGo bi bv i l := by
  induction l with
  | nil => intro bi bv i; rfl
  | cons x xs ih =>
      intro bi bv i
      unfold argmaxPair argmaxGo
      split <;> apply ih

/-- The value component of `argmaxPair` dominates the running best value
and every remaining element. -/
lemma argmaxPair_le (l : List Int) :
    ∀ bi bv i, bv ≤ (argmaxPair bi bv i l).2 ∧ ∀ x ∈ l, x ≤ (argmaxPair bi bv i l).2 := by
  induction l with
  | nil => intro bi bv i; exact ⟨le_refl _, by simp⟩
  | cons y ys ih =>
      intro bi bv i
      unfold argmaxPair
      split
      · rename_i hlt
        obtain ⟨h1, h2⟩ := ih i y (i + 1)
        refine ⟨le_of_lt (lt_of_lt_of_le hlt h1), ?_⟩
        intro x hx
        rcases List.mem_cons.mp hx with rfl | hx
        · exact h1
        · exact h2 x hx
      · rename_i hge
        obtain ⟨h1, h2⟩ := ih bi bv (i + 1)
        refine ⟨h1, ?_⟩
        intro x hx
        rcases List.mem_cons.mp hx with rfl | hx
        · exact le_trans (le_of_not_lt hge) h1
        · exact h2 x hx

/-- When the scanned suffix sits at offset `i` of the full list and the
running best value is the entry at the running best index, the value
component of `argmaxPair` is the full list's entry at the returned
index. -/
lemma argmaxPair_getD (L : List Int) :
    ∀ (l : List Int) (bi : Nat) (bv : Int) (i : Nat), l = L.drop i → L.getD bi 0 = bv →
      L.getD (argmaxPair bi bv i l).1 0 = (argmaxPair bi bv i l).2 := by
  intro l
  induction l with
  | nil => intro bi bv i _ hb; simpa [argmaxPair] using hb
  | cons y ys ih =>
      intro bi bv i hd hb
      have hy : L.getD i 0 = y := by
        have h0 : (L.drop i).getD 0 0 = y := by rw [← hd]; rfl
        rwa [List.getD_eq_getElem?_getD, List.getElem?_drop, Nat.add_zero,
          ← List.getD_eq_getElem?_getD] at h0
      have hys : ys = L.drop (i + 1) := by
        have h1 : (L.drop i).drop 1 = L.drop (i + 1) := List.drop_drop 1 i L
        rw [← hd] at h1
        exact h1
      unfold argmaxPair
      split
      · exact ih i y (i + 1) hys hy
      · exact ih bi bv (i + 1) hys hb

/-- The entry of a logits row at `argmaxIdx` dominates every entry: the
returned index is an arg-max. -/
lemma argmaxIdx_getD_le (l : List Int) (x : Int) (hx : x ∈ l) :
    x ≤ l.getD (argmaxIdx l) 0 := by
  cases l with
  | nil => simp at hx
  | cons y ys =>
      have hfst := argmaxPair_fst ys 0 y 1
      have hle := argmaxPair_le ys 0 y 1
      have hgd := argmaxPair_getD (y :: ys) ys 0 y 1 rfl rfl
      have hidx : argmaxIdx (y :: ys) = (argmaxPair 0 y 1 ys).1 := by
        rw [hfst]; rfl
      rw [hidx, hgd]
      rcases List.mem_cons.mp hx with rfl | hx
      · exact hle.1
      · exact hle.2 x hx

/-- On a normal return of the `except` handler exactly one reply (the
apology) was delivered and exactly one further attempt was made beyond
the prior ones. -/
lemma exceptBlock_spec (env : Env) (prior : List String)
    (h : (exceptBlock env prior).fault = none) :
    (exceptBlock env prior).replies.length = 1 ∧
      (exceptBlock env prior).attempts.length = prior.length + 1 := by
  unfold exceptBlock at *
  split at h <;> simp_all

/-- C1: whenever `handle_image` returns normally — covering the
no-attachment, decode-failure, inference-failure and success paths —
exactly one reply is delivered, and between one and two reply attempts
are made (two exactly when the success-path send inside the `try`
fails and the apology send succeeds).  The claim's further assertion
that every path ends with exactly one reply attempt is refuted by
`handle_image_download_failure_no_reply`: a fetch failure escapes
`handle_image` with zero replies attempted. -/
theorem handle_image_normal_return_one_reply (env : Env) (msg : Message)
    (r : HandleResult) (h : handle_image env msg = r) (hf : r.fault = none) :
    r.replies.length = 1 ∧ 1 ≤ r.attempts.length ∧ r.attempts.length ≤ 2 := by
  unfold handle_image at h
  split at h
  · subst h; simp at hf
  · split at h
    · subst h; exact ⟨rfl, by simp, by simp⟩
    · subst h; simp at hf
  · split at h
    · split at h
      · subst h
        obtain ⟨h1, h2⟩ := exceptBlock_spec env [] hf
        refine ⟨h1, ?_, ?_⟩ <;> simp [h2]
      · split at h
        · subst h
          obtain ⟨h1, h2⟩ := exceptBlock_spec env [] hf
          refine ⟨h1, ?_, ?_⟩ <;> simp [h2]
        · split at h
          · subst h; exact ⟨rfl, by simp, by simp⟩
          · subst h
            obtain ⟨h1, h2⟩ := exceptBlock_spec env _ hf
            refine ⟨h1, ?_, ?_⟩ <;> simp [h2]
    · subst h; simp at hf

/-- C1 witness: on a concrete all-success photo update the dispatcher
returns normally and the theorem yields exactly one delivered reply
from a single attempt. -/
theorem handle_image_normal_return_one_reply_witness :
    ({ replies := ["Predicted class: goldfish"],
       attempts := ["Predicted class: goldfish"],
       logs := [], fault := none } : HandleResult).replies.length = 1 ∧
      1 ≤ ({ replies := ["Predicted class: goldfish"],
             attempts := ["Predicted class: goldfish"],
             logs := [], fault := none } : HandleResult).attempts.length ∧
      ({ replies := ["Predicted class: goldfish"],
         attempts := ["Predicted class: goldfish"],
         logs := [], fault := none } : HandleResult).attempts.length ≤ 2 :=
  handle_image_normal_return_one_reply envOk msgPhoto
    { replies := ["Predicted class: goldfish"],
      attempts := ["Predicted class: goldfish"],
      logs := [], fault := none } (by rfl) (by rfl)

/-- C1 counterexample: on a photo update whose `get_file` call fails,
`handle_image` escapes with a network error, zero replies delivered and
zero attempted, so the dispatch cycle does not end with exactly one
reply attempt on every path. -/
theorem handle_image_download_failure_no_reply :
    handle_image envGetFileFails msgPhoto =
      { replies := [], attempts := [], logs := [],
        fault := some PyError.networkError } := by
  rfl

/-- C2: an inference-time error behind a successfully fetched and
decoded attachment is caught at the dispatch boundary and, whenever the
apology send itself succeeds, converted into the generic fallback reply
plus an error-level log entry.  The claim's further assertion that a
network/download failure is also caught (and as a distinct kind) is
refuted by `handle_image_download_error_propagates`: the download
happens outside the `try` block, so such an error escapes the
dispatcher; a failure of the unguarded apology send escapes too
(`handle_image_apology_send_failure_escapes`). -/
theorem handle_image_inference_error_fallback (env : Env) (msg : Message)
    (fid : String) (img : RGBImage)
    (h1 : selectFile env msg = Except.ok (some fid))
    (h2 : env.downloadOk fid = true)
    (h3 : env.decodeRGB (env.bytesOf fid) = some img)
    (h4 : env.inferLogits img = none)
    (h5 : env.replyOk apologyReply = true) :
    handle_image env msg =
      { replies := [apologyReply], attempts := [apologyReply],
        logs := [(LogLevel.error, "Error processing image")], fault := none } := by
  simp [handle_image, exceptBlock, h1, h2, h3, h4, h5]

/-- C2 witness: a concrete PNG document update whose inference call
fails yields the fallback reply plus the error log entry. -/
theorem handle_image_inference_error_fallback_witness :
    handle_image envInferFails msgPng =
      { replies := [apologyReply], attempts := [apologyReply],
        logs := [(LogLevel.error, "Error processing image")], fault := none } :=
  handle_image_inference_error_fallback envInferFails msgPng "doc1"
    { width := 224, height := 224, pixels := [] }
    (by rfl) (by rfl) (by rfl) (by rfl) (by rfl)

/-- C2 counterexample: on a PNG document update whose
`download_to_memory` call fails, the error propagates out of
`handle_image` uncaught — no fallback reply and no log entry — so not
every per-update error is caught at the dispatch boundary. -/
theorem handle_image_download_error_propagates :
    handle_image envDownloadFails msgPng =
      { replies := [], attempts := [], logs := [],
        fault := some PyError.networkError } := by
  rfl

/-- C3: for every update whose eligible attachment downloads and
decodes successfully and whose inference yields a logits row, the text
attempted — and, whenever its send succeeds, delivered as the single
reply — is the fixed template applied to `id2label (argmaxIdx logits)`,
and the entry at `argmaxIdx logits` dominates every logit: the top
class is always returned, with no confidence threshold.  The claim's
unconditional form is refuted by
`handle_image_send_failure_not_template`: when the template send
itself fails, the `except` handler delivers the apology instead. -/
theorem handle_image_predicted_class_reply (env : Env) (msg : Message)
    (fid : String) (img : RGBImage) (logits : List Int)
    (h1 : selectFile env msg = Except.ok (some fid))
    (h2 : env.downloadOk fid = true)
    (h3 : env.decodeRGB (env.bytesOf fid) = some img)
    (h4 : env.inferLogits img = some logits)
    (h5 : env.replyOk ("Predicted class: " ++ env.id2label (argmaxIdx logits)) = true) :
    handle_image env msg =
      { replies := ["Predicted class: " ++ env.id2label (argmaxIdx logits)],
        attempts := ["Predicted class: " ++ env.id2label (argmaxIdx logits)],
        logs := [], fault := none }
    ∧ ∀ x ∈ logits, x ≤ logits.getD (argmaxIdx logits) 0 := by
  constructor
  · simp [handle_image, h1, h2, h3, h4, h5]
  · intro x hx
    exact argmaxIdx_getD_le logits x hx

/-- C3 witness: a concrete PNG document update with logits `[2, 9, 4]`
replies `"Predicted class: goldfish"` (index 1 through the label
table). -/
theorem handle_image_predicted_class_reply_witness :
    handle_image envOk msgPng =
      { replies := ["Predicted class: goldfish"],
        attempts := ["Predicted class: goldfish"],
        logs := [], fault := none } :=
  (handle_image_predicted_class_reply envOk msgPng "doc1"
    { width := 224, height := 224, pixels := [] } [2, 9, 4]
    (by rfl) (by rfl) (by rfl) (by rfl) (by rfl)).1

/-- C3 counterexample: with decode and inference succeeding but the
template send failing, the update's single delivered reply is the
apology, not the `"Predicted class: L"` template — two sends are
attempted and the second, fallback one lands. -/
theorem handle_image_send_failure_not_template :
    handle_image envPredictedSendFails msgPng =
      { replies := [apologyReply],
        attempts := ["Predicted class: goldfish", apologyReply],
        logs := [(LogLevel.error, "Error processing image")], fault := none } := by
  decide

/-- C4: an update with no photo and a document whose MIME type does not
start with `image/` short-circuits at attachment selection and attempts
exactly the "send a photo or image file" prompt, delivered whenever
that send succeeds; the theorem quantifies over every pipeline
behaviour, so no download, decode or inference call can influence it.
The claim's assertion that the prompt reply always happens is refuted
by `handle_image_prompt_send_failure_escapes`: the prompt send is
unguarded and its failure escapes with zero replies. -/
theorem handle_image_non_image_document_prompt (env : Env) (d : Document)
    (mt : String) (h1 : d.mime_type = some mt)
    (h2 : strStartsWith mt "image/" = false)
    (h3 : env.replyOk noAttachmentReply = true) :
    handle_image env { photo := [], document := some d } =
      { replies := [noAttachmentReply], attempts := [noAttachmentReply],
        logs := [], fault := none } := by
  simp [handle_image, selectFile, h1, h2, h3]

/-- C4 witness: a PDF document update gets the prompt even in the
environment where every pipeline call fails, showing none is
consulted. -/
theorem handle_image_non_image_document_prompt_witness :
    handle_image envPipelineFails msgPdf =
      { replies := [noAttachmentReply], attempts := [noAttachmentReply],
        logs := [], fault := none } :=
  handle_image_non_image_document_prompt envPipelineFails
    { file_id := "doc1", mime_type := some "application/pdf" }
    "application/pdf" (by rfl) (by rfl) (by rfl)

/-- C4 counterexample: on the same PDF update, when the unguarded
prompt send at the `else` branch fails, the error escapes
`handle_image` with zero replies delivered — the prompt reply is not
sent on every such update. -/
theorem handle_image_prompt_send_failure_escapes :
    handle_image envAllFail msgPdf =
      { replies := [], attempts := [noAttachmentReply], logs := [],
        fault := some PyError.networkError } := by
  rfl

/-- C5: malformed bytes behind an eligible, successfully downloaded
attachment reach the decode-failure handler, which logs the diagnostic
and attempts exactly the generic apology reply, delivered whenever that
send succeeds.  The claim's "never raises an unhandled fault" is
refuted by `handle_image_apology_send_failure_escapes`: the apology
send in the `except` block is itself unguarded, and its failure escapes
the dispatch cycle. -/
theorem handle_image_decode_failure_apology (env : Env) (msg : Message)
    (fid : String)
    (h1 : selectFile env msg = Except.ok (some fid))
    (h2 : env.downloadOk fid = true)
    (h3 : env.decodeRGB (env.bytesOf fid) = none)
    (h4 : env.replyOk apologyReply = true) :
    handle_image env msg =
      { replies := [apologyReply], attempts := [apologyReply],
        logs := [(LogLevel.error, "Error processing image")], fault := none } := by
  simp [handle_image, exceptBlock, h1, h2, h3, h4]

/-- C5 witness: a concrete PNG document update whose bytes fail to
decode yields the apology reply and no fault. -/
theorem handle_image_decode_failure_apology_witness :
    handle_image envDecodeFails msgPng =
      { replies := [apologyReply], attempts := [apologyReply],
        logs := [(LogLevel.error, "Error processing image")], fault := none } :=
  handle_image_decode_failure_apology envDecodeFails msgPng "doc1"
    (by rfl) (by rfl) (by rfl) (by rfl)

/-- C5 counterexample: on malformed bytes, when the apology send in the
`except` block fails too, the exception escapes `handle_image` — an
unhandled fault does leave the dispatch cycle, with the diagnostic
logged but no reply delivered. -/
theorem handle_image_apology_send_failure_escapes :
    handle_image envDecodeAndSendFail msgPng =
      { replies := [], attempts := [apologyReply],
        logs := [(LogLevel.error, "Error processing image")],
        fault := some PyError.networkError } := by
  rfl

/-- C6: when the photo list is non-empty, attachment selection resolves
the last (highest-resolution) photo variant, and the document slot is
ignored: the selection is identical for any two document values. -/
theorem selectFile_photo_last_ignores_document (env : Env)
    (photos : List String) (doc doc2 : Option Document) (pid : String)
    (h : photos.getLast? = some pid) :
    selectFile env { photo := photos, document := doc } =
      selectFile env { photo := photos, document := doc2 }
    ∧ (env.getFileOk pid = true →
        selectFile env { photo := photos, document := doc } = Except.ok (some pid)) := by
  constructor
  · simp [selectFile, h]
  · intro hok
    simp [selectFile, h, hok]

/-- C6 witness: on the two-variant photo list the last variant `large`
is selected, whether or not a PDF document rides along. -/
theorem selectFile_photo_last_ignores_document_witness :
    selectFile envOk
        { photo := ["small", "large"],
          document := some { file_id := "doc1", mime_type := some "application/pdf" } } =
      Except.ok (some "large") :=
  (selectFile_photo_last_ignores_document envOk ["small", "large"]
    (some { file_id := "doc1", mime_type := some "application/pdf" }) none
    "large" (by rfl)).2 (by rfl)

/-- A concrete startup environment in which `set_webhook` returns
`False`. -/
def mainEnvSetFalse : MainEnv :=
  { deleteWebhookCall := .ok true
    setWebhookCall := .ok false
    webhookUrl := "https://example.onrender.com/webhook" }

/-- A concrete startup environment in which `set_webhook` raises. -/
def mainEnvSetRaises : MainEnv :=
  { deleteWebhookCall := .ok true
    setWebhookCall := .raised
    webhookUrl := "https://example.onrender.com/webhook" }

/-- C7: when `set_webhook` reports failure by returning `False`, the
failure is logged at warning level and startup is not aborted — the
server still starts.  The claim's further assertion that this holds for
every way registration can fail is refuted by
`main_set_webhook_raise_aborts`: a raised exception from the
registration calls escapes `main` before the server starts. -/
theorem main_set_webhook_false_nonfatal (env : MainEnv) (b : Bool)
    (h1 : env.deleteWebhookCall = ApiCall.ok b)
    (h2 : env.setWebhookCall = ApiCall.ok false) :
    main env =
      Except.ok { logs := [(LogLevel.warning, "❌ Failed to set webhook!")],
                  serverStarted := true } := by
  simp [main, h1, h2]

/-- C7 witness: the concrete environment where `set_webhook` returns
`False` logs the warning and still starts the server. -/
theorem main_set_webhook_false_nonfatal_witness :
    main mainEnvSetFalse =
      Except.ok { logs := [(LogLevel.warning, "❌ Failed to set webhook!")],
                  serverStarted := true } :=
  main_set_webhook_false_nonfatal mainEnvSetFalse true (by rfl) (by rfl)

/-- C7 counterexample: when `set_webhook` raises instead of returning
`False`, the exception escapes `main` uncaught — nothing is logged and
the server never starts — so startup is aborted for this way of
failing. -/
theorem main_set_webhook_raise_aborts :
    main mainEnvSetRaises = Except.error PyError.networkError := by
  rfl

/-- C8: the registration sequence (delete the previous webhook
discarding pending updates, then register the current URL) is
idempotent — running it twice with the same URL produces the same final
platform state, whose registered URL is the given one and whose pending
queue is empty. -/
theorem registerSequence_idempotent (url : String) (s : PlatformState) :
    registerSequence url (registerSequence url s) = registerSequence url s
    ∧ (registerSequence url s).registeredUrl = some url
    ∧ (registerSequence url s).pendingUpdates = [] := by
  exact ⟨rfl, rfl, rfl⟩

/-- C9: an update with no photo and a document whose MIME type is
absent (`None`) makes `handle_image` raise an `AttributeError` from
`None.startswith` while evaluating the MIME-type check, sending no
reply, in every environment. -/
theorem handle_image_none_mime_type_faults (env : Env) (fid : String) :
    handle_image env
        { photo := [], document := some { file_id := fid, mime_type := none } } =
      { replies := [], attempts := [], logs := [],
        fault := some PyError.attributeError } := by
  rfl

/-- C10: a request to `GET /` is routed to `healthcheck` and answered
with status 200 and body `"OK"`. -/
theorem serveRequest_health_route_ok (request : Unit) :
    serveRequest "GET" "/" request = some { status := 200, body := "OK" } := by
  rfl

end TgBot
